import Mathlib

/-!
Shallow embedding of the SeoForge client (React SPA over two parallel
BaaS backends, Supabase and Firebase) for checking its natural-language
specification.

The repository's interesting behavior lives in:
  * src/src/lib/supabase.ts            - Supabase SDK wrappers
  * the Firebase twin of that module   - Firebase SDK wrappers
  * the zustand stores (authStore, projectStore)
  * App.tsx                            - hash-based client router
  * ArticleEditor.tsx                  - AI-generation gating
  * supabase/migrations/*.sql          - schema, RLS policies, triggers

Pure logic (router, permission predicates, store reducers, editor gating)
is embedded as functions over explicit inputs.  SDK wrappers are embedded
as functions of an outcome oracle (`Env`): every awaited SDK call reads
its outcome (data / empty / returned error / thrown exception) from the
oracle at the call's position in program order, and the embedding returns
the wrapper's result (`Except Unit Resp`, where `Except.error` means an
uncaught exception escapes to the caller) together with the ordered trace
of SDK calls it issued.
-/

namespace SeoForge

/-- Team-member roles, mirroring the TS union and the SQL CHECK clause
`role IN ('owner', 'admin', 'editor', 'viewer')`. -/
inductive Role where
  | owner
  | admin
  | editor
  | viewer
  deriving DecidableEq, Repr

/-- Team-member status, mirroring `status IN ('pending', 'active', 'inactive')`. -/
inductive MemberStatus where
  | pending
  | active
  | inactive
  deriving DecidableEq, Repr

/-- A row of the `team_members` table, with the columns the client reads. -/
structure TeamMemberRow where
  user_id : String
  project_id : String
  role : Role
  status : MemberStatus
  deriving DecidableEq, Repr

/-- The slice of database state consulted by the permission helpers. -/
structure TeamDB where
  team_members : List TeamMemberRow
  deriving Repr

/-- JS `String.prototype.startsWith`, embedded over the character list so the
kernel can evaluate it on concrete hashes. -/
def strStartsWith (s p : String) : Bool :=
  p.toList.isPrefixOf s.toList

/-- PostgREST `.single()` / first-doc-of-snapshot: yields a row only when the
query matched exactly one row (with two or more, PostgREST returns an error
and `data` is null; the Firebase variant takes `docs[0]` of a snapshot that
the UNIQUE(user_id, project_id) constraint keeps at most one long). -/
def singleRow {α : Type} : List α → Option α
  | [r] => some r
  | _ => none

/-- Row filter used by `getUserProjectRole`: the three `.eq` clauses
`project_id = projectId`, `user_id = uid`, `status = 'active'`. -/
def activeMembershipFor (uid projectId : String) (t : TeamMemberRow) : Bool :=
  t.project_id == projectId && t.user_id == uid
    && t.status == MemberStatus.active

/-- Embedding of `getUserProjectRole(projectId)` (supabase.ts lines 709-732):
query `team_members` for `project_id = projectId`, `user_id = user.id`,
`status = 'active'`, `.single()`; return the role or null.  The current user
is passed explicitly (`none` for a signed-out session). -/
def getUserProjectRole (db : TeamDB) (currentUser : Option String)
    (projectId : String) : Option Role :=
  match currentUser with
  | none => none
  | some uid =>
    match singleRow (db.team_members.filter (activeMembershipFor uid projectId)) with
    | some row => some row.role
    | none => none

/-- Embedding of `canUserEditProject(projectId)` (supabase.ts lines 734-737):
`role && ['owner', 'admin', 'editor'].includes(role)`; the JS value is truthy
exactly when this Bool is true. -/
def canUserEditProject (db : TeamDB) (currentUser : Option String)
    (projectId : String) : Bool :=
  match getUserProjectRole db currentUser projectId with
  | none => false
  | some role => [Role.owner, Role.admin, Role.editor].contains role

/-- Embedding of `canUserManageTeam(projectId)` (supabase.ts lines 739-742):
`role && ['owner', 'admin'].includes(role)`. -/
def canUserManageTeam (db : TeamDB) (currentUser : Option String)
    (projectId : String) : Bool :=
  match getUserProjectRole db currentUser projectId with
  | none => false
  | some role => [Role.owner, Role.admin].contains role

/-- The views the App component can show. -/
inductive View where
  | landing
  | dashboard
  | editor
  | briefGenerator
  | team
  | settings
  | pricing
  | support
  deriving DecidableEq, Repr

/-- Embedding of `handleHashChange` (App.tsx lines 32-53): the if/else-if
cascade on `window.location.hash`. -/
def handleHashChange (hash : String) : View :=
  if strStartsWith hash "#/dashboard" then View.dashboard
  else if strStartsWith hash "#/project/" then View.editor
  else if strStartsWith hash "#/brief-generator" then View.briefGenerator
  else if strStartsWith hash "#/team" then View.team
  else if strStartsWith hash "#/settings" then View.settings
  else if strStartsWith hash "#/pricing" then View.pricing
  else if strStartsWith hash "#/support" then View.support
  else View.landing

/-- The route table in the claim's wording: prefixes in the fixed order given
by the spec, each mapped to its view. -/
def routeTable : List (String × View) :=
  [("#/dashboard", View.dashboard),
   ("#/project/", View.editor),
   ("#/brief-generator", View.briefGenerator),
   ("#/team", View.team),
   ("#/settings", View.settings),
   ("#/pricing", View.pricing),
   ("#/support", View.support)]

/-- Spec-side router: first matching entry of the route table wins, every
other hash (including the empty string) yields the landing view. -/
def firstMatchRoute : List (String × View) → String → View
  | [], _ => View.landing
  | (p, v) :: rest, hash =>
    if strStartsWith hash p then v else firstMatchRoute rest hash

/-! ## Effect-trace embedding of the SDK wrappers

Each wrapper is a function of an outcome oracle.  `env.outcomes k` is the
outcome of the k-th awaited SDK call of the invocation (counted in program
order from 0); `env.hasUser` is the synchronously read Firebase
`auth.currentUser`.  A wrapper returns its JS result as `Except Unit Resp`
(`Except.error ()` marks an exception escaping to the caller, `Resp` records
whether the returned `{ data, error }` object has non-null `data` / `error`)
together with the ordered list of SDK calls it issued. -/

/-- One awaited (or, for `sleep`, timed) effect issued by the client. -/
inductive SDKCall where
  | authSignUp
  | authSignInPw
  | authSignOutCall
  | authGetUser
  | dbInsert (table : String)
  | dbSelect (table : String)
  | dbUpdate (table : String)
  | dbDelete (table : String)
  | rpc (fn : String)
  | fsSetDoc (coll : String)
  | fsAddDoc (coll : String)
  | fsUpdateDoc (coll : String)
  | fsGetDoc (coll : String)
  | fsGetDocs (coll : String)
  | fsDeleteDoc (coll : String)
  | sleep (ms : Nat)
  deriving DecidableEq, Repr

/-- Outcome of one awaited SDK call. -/
inductive Outcome where
  | ok       -- resolved; the data (or the user / a matching row) is present
  | okEmpty  -- resolved; data (or the user, or the row set) is null / empty
  | err      -- resolved with a non-null `error` field (Supabase style)
  | thrown   -- the awaited promise rejected (a JS exception)
  deriving DecidableEq, Repr

/-- Oracle fixing the outcome of every SDK call of one invocation. -/
structure Env where
  outcomes : Nat → Outcome
  hasUser : Bool

/-- Shape of a wrapper's `{ data, error }` return value: whether each field
is truthy. -/
structure Resp where
  hasData : Bool
  hasError : Bool
  deriving DecidableEq, Repr

/-- Embedding of the Supabase `signUp` (supabase.ts lines 107-124):
one `supabase.auth.signUp` call inside try/catch. -/
def sbSignUp (env : Env) : Except Unit Resp × List SDKCall :=
  match env.outcomes 0 with
  | Outcome.ok => (Except.ok ⟨true, false⟩, [SDKCall.authSignUp])
  | Outcome.okEmpty => (Except.ok ⟨false, false⟩, [SDKCall.authSignUp])
  | Outcome.err => (Except.ok ⟨false, true⟩, [SDKCall.authSignUp])
  | Outcome.thrown => (Except.ok ⟨false, true⟩, [SDKCall.authSignUp])

/-- Embedding of the Supabase `signIn` (supabase.ts lines 126-138). -/
def sbSignIn (env : Env) : Except Unit Resp × List SDKCall :=
  match env.outcomes 0 with
  | Outcome.ok => (Except.ok ⟨true, false⟩, [SDKCall.authSignInPw])
  | Outcome.okEmpty => (Except.ok ⟨false, false⟩, [SDKCall.authSignInPw])
  | Outcome.err => (Except.ok ⟨false, true⟩, [SDKCall.authSignInPw])
  | Outcome.thrown => (Except.ok ⟨false, true⟩, [SDKCall.authSignInPw])

/-- Embedding of the Supabase `signOut` (supabase.ts lines 140-143).  Unlike
every other wrapper in the module it has no try/catch, so a rejected
`supabase.auth.signOut()` escapes to the caller (`Except.error ()`). -/
def sbSignOut (env : Env) : Except Unit Resp × List SDKCall :=
  match env.outcomes 0 with
  | Outcome.ok => (Except.ok ⟨false, false⟩, [SDKCall.authSignOutCall])
  | Outcome.okEmpty => (Except.ok ⟨false, false⟩, [SDKCall.authSignOutCall])
  | Outcome.err => (Except.ok ⟨false, true⟩, [SDKCall.authSignOutCall])
  | Outcome.thrown => (Except.error (), [SDKCall.authSignOutCall])

/-- Embedding of the Supabase `getCurrentUser` (supabase.ts lines 145-153),
issuing its `supabase.auth.getUser()` as call number k: a null user, an
error, and a caught exception all yield null. -/
def sbGetCurrentUser (env : Env) (k : Nat) : Option Unit × List SDKCall :=
  match env.outcomes k with
  | Outcome.ok => (some (), [SDKCall.authGetUser])
  | _ => (none, [SDKCall.authGetUser])

/-- Embedding of the Supabase `createProject` (supabase.ts lines 156-194):
`getCurrentUser`, insert into `projects`, and on success a `log_activity`
RPC whose failure is swallowed by an inner try/catch. -/
def sbCreateProject (env : Env) : Except Unit Resp × List SDKCall :=
  match sbGetCurrentUser env 0 with
  | (none, tr) => (Except.ok ⟨false, true⟩, tr)
  | (some _, tr) =>
    match env.outcomes 1 with
    | Outcome.ok =>
      (Except.ok ⟨true, false⟩,
        tr ++ [SDKCall.dbInsert "projects", SDKCall.rpc "log_activity"])
    | Outcome.okEmpty => (Except.ok ⟨false, false⟩, tr ++ [SDKCall.dbInsert "projects"])
    | Outcome.err => (Except.ok ⟨false, true⟩, tr ++ [SDKCall.dbInsert "projects"])
    | Outcome.thrown => (Except.ok ⟨false, true⟩, tr ++ [SDKCall.dbInsert "projects"])

/-- Embedding of the Supabase `getUserProjects` (supabase.ts lines 196-216);
the catch branch returns `{ data: [], error }`, and `data || []` keeps the
data field truthy in every branch. -/
def sbGetUserProjects (env : Env) : Except Unit Resp × List SDKCall :=
  match sbGetCurrentUser env 0 with
  | (none, tr) => (Except.ok ⟨true, true⟩, tr)
  | (some _, tr) =>
    match env.outcomes 1 with
    | Outcome.ok => (Except.ok ⟨true, false⟩, tr ++ [SDKCall.dbSelect "projects"])
    | Outcome.okEmpty => (Except.ok ⟨true, false⟩, tr ++ [SDKCall.dbSelect "projects"])
    | Outcome.err => (Except.ok ⟨true, true⟩, tr ++ [SDKCall.dbSelect "projects"])
    | Outcome.thrown => (Except.ok ⟨true, true⟩, tr ++ [SDKCall.dbSelect "projects"])

/-- Embedding of the Supabase `createArticle` (supabase.ts lines 218-251). -/
def sbCreateArticle (env : Env) : Except Unit Resp × List SDKCall :=
  match env.outcomes 0 with
  | Outcome.ok =>
    (Except.ok ⟨true, false⟩,
      [SDKCall.dbInsert "articles", SDKCall.rpc "log_activity"])
  | Outcome.okEmpty => (Except.ok ⟨false, false⟩, [SDKCall.dbInsert "articles"])
  | Outcome.err => (Except.ok ⟨false, true⟩, [SDKCall.dbInsert "articles"])
  | Outcome.thrown => (Except.ok ⟨false, true⟩, [SDKCall.dbInsert "articles"])

/-- Embedding of the Supabase `updateArticle` (supabase.ts lines 268-296). -/
def sbUpdateArticle (env : Env) : Except Unit Resp × List SDKCall :=
  match env.outcomes 0 with
  | Outcome.ok =>
    (Except.ok ⟨true, false⟩,
      [SDKCall.dbUpdate "articles", SDKCall.rpc "log_activity"])
  | Outcome.okEmpty => (Except.ok ⟨false, false⟩, [SDKCall.dbUpdate "articles"])
  | Outcome.err => (Except.ok ⟨false, true⟩, [SDKCall.dbUpdate "articles"])
  | Outcome.thrown => (Except.ok ⟨false, true⟩, [SDKCall.dbUpdate "articles"])

/-- Embedding of the Supabase `getUserProfile` (supabase.ts lines 298-319),
with its `supabase.auth.getUser()` issued as call k and the `users` select
as call k+1 (the offset lets the auth store compose it after a sign-in). -/
def sbGetUserProfileAt (env : Env) (k : Nat) : Except Unit Resp × List SDKCall :=
  match sbGetCurrentUser env k with
  | (none, tr) => (Except.ok ⟨false, true⟩, tr)
  | (some _, tr) =>
    match env.outcomes (k + 1) with
    | Outcome.ok => (Except.ok ⟨true, false⟩, tr ++ [SDKCall.dbSelect "users"])
    | Outcome.okEmpty => (Except.ok ⟨false, false⟩, tr ++ [SDKCall.dbSelect "users"])
    | Outcome.err => (Except.ok ⟨false, true⟩, tr ++ [SDKCall.dbSelect "users"])
    | Outcome.thrown => (Except.ok ⟨false, true⟩, tr ++ [SDKCall.dbSelect "users"])

/-- The Supabase `getUserProfile` as a stand-alone invocation. -/
def sbGetUserProfile (env : Env) : Except Unit Resp × List SDKCall :=
  sbGetUserProfileAt env 0

/-- Embedding of the Supabase `incrementUsageCount` (supabase.ts lines
745-764): one client-issued UPDATE of `users.usage_count`. -/
def sbIncrementUsageCount (env : Env) : Except Unit Resp × List SDKCall :=
  match sbGetCurrentUser env 0 with
  | (none, tr) => (Except.ok ⟨false, true⟩, tr)
  | (some _, tr) =>
    match env.outcomes 1 with
    | Outcome.ok => (Except.ok ⟨true, false⟩, tr ++ [SDKCall.dbUpdate "users"])
    | Outcome.okEmpty => (Except.ok ⟨false, false⟩, tr ++ [SDKCall.dbUpdate "users"])
    | Outcome.err => (Except.ok ⟨false, true⟩, tr ++ [SDKCall.dbUpdate "users"])
    | Outcome.thrown => (Except.ok ⟨false, true⟩, tr ++ [SDKCall.dbUpdate "users"])

/-- Trace-level embedding of the Supabase `inviteTeamMember` (supabase.ts
lines 360-422): caller lookup, existing-member `.single()`, pending-invite
`.single()`, the insert, and on success the `log_activity` RPC. -/
def sbInviteTeamMemberTr (env : Env) : Except Unit Resp × List SDKCall :=
  match sbGetCurrentUser env 0 with
  | (none, tr) => (Except.ok ⟨false, true⟩, tr)
  | (some _, tr) =>
    match env.outcomes 1 with
    | Outcome.ok => (Except.ok ⟨false, true⟩, tr ++ [SDKCall.dbSelect "team_members"])
    | Outcome.thrown => (Except.ok ⟨false, true⟩, tr ++ [SDKCall.dbSelect "team_members"])
    | _ =>
      let tr1 := tr ++ [SDKCall.dbSelect "team_members"]
      match env.outcomes 2 with
      | Outcome.ok =>
        (Except.ok ⟨false, true⟩, tr1 ++ [SDKCall.dbSelect "project_invitations"])
      | Outcome.thrown =>
        (Except.ok ⟨false, true⟩, tr1 ++ [SDKCall.dbSelect "project_invitations"])
      | _ =>
        let tr2 := tr1 ++ [SDKCall.dbSelect "project_invitations"]
        match env.outcomes 3 with
        | Outcome.ok =>
          (Except.ok ⟨true, false⟩,
            tr2 ++ [SDKCall.dbInsert "project_invitations", SDKCall.rpc "log_activity"])
        | Outcome.okEmpty =>
          (Except.ok ⟨false, false⟩, tr2 ++ [SDKCall.dbInsert "project_invitations"])
        | Outcome.err =>
          (Except.ok ⟨false, true⟩, tr2 ++ [SDKCall.dbInsert "project_invitations"])
        | Outcome.thrown =>
          (Except.ok ⟨false, true⟩, tr2 ++ [SDKCall.dbInsert "project_invitations"])

/-- Embedding of the Firebase `signUp` (firebase.ts): the auth call, then a
client-side `setDoc` that writes the `users/{uid}` profile document. -/
def fbSignUp (env : Env) : Except Unit Resp × List SDKCall :=
  match env.outcomes 0 with
  | Outcome.err | Outcome.thrown => (Except.ok ⟨false, true⟩, [SDKCall.authSignUp])
  | _ =>
    match env.outcomes 1 with
    | Outcome.err | Outcome.thrown =>
      (Except.ok ⟨false, true⟩, [SDKCall.authSignUp, SDKCall.fsSetDoc "users"])
    | _ => (Except.ok ⟨true, false⟩, [SDKCall.authSignUp, SDKCall.fsSetDoc "users"])

/-- Embedding of the Firebase `signIn`. -/
def fbSignIn (env : Env) : Except Unit Resp × List SDKCall :=
  match env.outcomes 0 with
  | Outcome.err | Outcome.thrown => (Except.ok ⟨false, true⟩, [SDKCall.authSignInPw])
  | _ => (Except.ok ⟨true, false⟩, [SDKCall.authSignInPw])

/-- Embedding of the Firebase `signOut`: unlike the Supabase one it has a
try/catch, so a rejected call becomes `{ error }`. -/
def fbSignOut (env : Env) : Except Unit Resp × List SDKCall :=
  match env.outcomes 0 with
  | Outcome.err | Outcome.thrown => (Except.ok ⟨false, true⟩, [SDKCall.authSignOutCall])
  | _ => (Except.ok ⟨false, false⟩, [SDKCall.authSignOutCall])

/-- Embedding of the Firebase `createProject`: the client itself adds the
project document, the owner's `team_members` document, and (via
`logActivity`, whose failures are swallowed) an `activity_logs` document. -/
def fbCreateProject (env : Env) : Except Unit Resp × List SDKCall :=
  if !env.hasUser then (Except.ok ⟨false, true⟩, [])
  else
    match env.outcomes 0 with
    | Outcome.err | Outcome.thrown => (Except.ok ⟨false, true⟩, [SDKCall.fsAddDoc "projects"])
    | _ =>
      match env.outcomes 1 with
      | Outcome.err | Outcome.thrown =>
        (Except.ok ⟨false, true⟩,
          [SDKCall.fsAddDoc "projects", SDKCall.fsAddDoc "team_members"])
      | _ =>
        (Except.ok ⟨true, false⟩,
          [SDKCall.fsAddDoc "projects", SDKCall.fsAddDoc "team_members",
           SDKCall.fsAddDoc "activity_logs"])

/-- Embedding of the Firebase `incrementUsageCount`: a client-issued
`updateDoc` with `increment(1)` on `users/{uid}`, then a `getDoc` readback. -/
def fbIncrementUsageCount (env : Env) : Except Unit Resp × List SDKCall :=
  if !env.hasUser then (Except.ok ⟨false, true⟩, [])
  else
    match env.outcomes 0 with
    | Outcome.err | Outcome.thrown => (Except.ok ⟨false, true⟩, [SDKCall.fsUpdateDoc "users"])
    | _ =>
      match env.outcomes 1 with
      | Outcome.err | Outcome.thrown =>
        (Except.ok ⟨false, true⟩, [SDKCall.fsUpdateDoc "users", SDKCall.fsGetDoc "users"])
      | _ =>
        (Except.ok ⟨true, false⟩, [SDKCall.fsUpdateDoc "users", SDKCall.fsGetDoc "users"])

/-- Embedding of `authStore.signIn` (authStore.ts lines 80-101): the
Supabase sign-in, then an explicit 500 ms `setTimeout` ("wait a moment for
any database triggers to complete"), then `getUserProfile`. -/
def storeSignIn (env : Env) : Except Unit Resp × List SDKCall :=
  match sbSignIn env with
  | (Except.error _, tr) => (Except.ok ⟨false, true⟩, tr)
  | (Except.ok r, tr) =>
    if !r.hasError && r.hasData then
      match sbGetUserProfileAt env 1 with
      | (_, tr2) => (Except.ok ⟨false, false⟩, tr ++ [SDKCall.sleep 500] ++ tr2)
    else (Except.ok ⟨false, r.hasError⟩, tr)

/-- Embedding of `authStore.signUp` (authStore.ts lines 103-125): the
Supabase sign-up, then an explicit 2000 ms `setTimeout` ("wait for the user
profile to be created by the database trigger"), then `getUserProfile`. -/
def storeSignUp (env : Env) : Except Unit Resp × List SDKCall :=
  match sbSignUp env with
  | (Except.error _, tr) => (Except.ok ⟨false, true⟩, tr)
  | (Except.ok r, tr) =>
    if !r.hasError && r.hasData then
      match sbGetUserProfileAt env 1 with
      | (_, tr2) => (Except.ok ⟨false, false⟩, tr ++ [SDKCall.sleep 2000] ++ tr2)
    else (Except.ok ⟨false, r.hasError⟩, tr)

/-- Oracle under which every SDK call succeeds with data. -/
def envAllOk : Env := { outcomes := fun _ => Outcome.ok, hasUser := true }

/-- Oracle under which every SDK call throws. -/
def envThrow : Env := { outcomes := fun _ => Outcome.thrown, hasUser := true }

/-! ## Invitation payloads and the data-level invitation operations -/

/-- The record a client inserts into `project_invitations`.  A `none` field
is absent from the insert payload, so the SQL DEFAULT of the column fills it
(`token text UNIQUE NOT NULL DEFAULT encode(gen_random_bytes(32), 'hex')`,
`expires_at timestamptz NOT NULL DEFAULT (now() + interval '7 days')`). -/
structure InvitePayload where
  project_id : String
  email : String
  role : Role
  invited_by : String
  token : Option String
  expires_at : Option Nat
  deriving DecidableEq, Repr

/-- Embedding of the Firebase helper `generateInviteToken`:
`Math.random().toString(36).substring(2, 15) +
Math.random().toString(36).substring(2, 15)`.  The two base-36 draws are
abstracted as the strings the runtime's RNG produced; the claims depend only
on the fact that the client concatenates them itself. -/
def generateInviteToken (rand1 rand2 : String) : String := rand1 ++ rand2

/-- Milliseconds in the 7 days the Firebase client adds to `Date.now()`:
`7 * 24 * 60 * 60 * 1000`. -/
def sevenDaysMs : Nat := 7 * 24 * 60 * 60 * 1000

/-- The insert payload built by the Supabase `inviteTeamMember` (supabase.ts
lines 391-400): only `project_id`, `email`, `role`, `invited_by` are
supplied; token and expiry are left to the database defaults. -/
def sbInvitePayload (projectId email : String) (role : Role)
    (uid : String) : InvitePayload :=
  { project_id := projectId, email := email, role := role, invited_by := uid,
    token := none, expires_at := none }

/-- The `invitationData` document built by the Firebase `inviteTeamMember`:
the client itself computes `token: generateInviteToken()` and
`expires_at: new Date(Date.now() + 7 * 24 * 60 * 60 * 1000)`. -/
def fbInvitePayload (projectId email : String) (role : Role) (uid : String)
    (rand1 rand2 : String) (nowMs : Nat) : InvitePayload :=
  { project_id := projectId, email := email, role := role, invited_by := uid,
    token := some (generateInviteToken rand1 rand2),
    expires_at := some (nowMs + sevenDaysMs) }

/-- A pending-invitation row as seen by the duplicate-invitation query:
`accepted` is `accepted_at IS NOT NULL`, `expired` is `expires_at <= now()`. -/
structure PendingInviteRow where
  project_id : String
  email : String
  accepted : Bool
  expired : Bool
  deriving DecidableEq, Repr

/-- Database slice read and written by `inviteTeamMember`. -/
structure InviteDB where
  team_members : List TeamMemberRow
  invitations : List PendingInviteRow
  deriving Repr

/-- The distinct return sites of the Supabase `inviteTeamMember`. -/
inductive InviteResult where
  | notAuthenticated
  | alreadyMember
  | alreadyInvited
  | invited (payload : InvitePayload)
  deriving DecidableEq, Repr

/-- Data-level embedding of the Supabase `inviteTeamMember` (supabase.ts
lines 360-422).  The pre-existing-member `.single()` filters
`team_members` on `project_id = projectId` and `user_id = user.id` - the
CALLER's id, not the invited email. -/
def sbInviteTeamMember (db : InviteDB) (currentUser : Option String)
    (projectId email : String) (role : Role) : InviteResult × InviteDB :=
  match currentUser with
  | none => (InviteResult.notAuthenticated, db)
  | some uid =>
    match singleRow (db.team_members.filter fun t =>
        t.project_id == projectId && t.user_id == uid) with
    | some _ => (InviteResult.alreadyMember, db)
    | none =>
      match singleRow (db.invitations.filter fun i =>
          i.project_id == projectId && i.email == email
            && !i.accepted && !i.expired) with
      | some _ => (InviteResult.alreadyInvited, db)
      | none =>
        (InviteResult.invited (sbInvitePayload projectId email role uid),
         { db with invitations := db.invitations ++
             [{ project_id := projectId, email := email,
                accepted := false, expired := false }] })

/-! ## acceptInvitation, with explicit database state -/

/-- An invitation row as read by `acceptInvitation` (`.eq('token', token)`,
`.is('accepted_at', null)`, `.gt('expires_at', now)`). -/
structure AcceptInviteRow where
  id : String
  project_id : String
  email : String
  role : Role
  invited_by : String
  token : String
  accepted : Bool
  expired : Bool
  deriving DecidableEq, Repr

/-- Database slice touched by `acceptInvitation`. -/
structure AcceptDB where
  invitations : List AcceptInviteRow
  team_members : List TeamMemberRow
  deriving Repr

/-- The authenticated user as `acceptInvitation` reads it. -/
structure AcceptUser where
  id : String
  email : String
  deriving DecidableEq, Repr

/-- The distinct return sites of `acceptInvitation`. -/
inductive AcceptResult where
  | notAuthenticated
  | invalidOrExpired
  | emailMismatch
  | memberInsertError
  | invitationUpdateError
  | joined
  deriving DecidableEq, Repr

/-- The `UPDATE project_invitations SET accepted_at = now() WHERE id = invId`
issued after the team-member insert. -/
def markAccepted (l : List AcceptInviteRow) (invId : String) : List AcceptInviteRow :=
  l.map fun i => if i.id == invId then { i with accepted := true } else i

/-- Embedding of the Supabase `acceptInvitation` (supabase.ts lines 518-588)
over explicit database state.  `insertOk` / `updateOk` say whether the
team-member insert and the invitation update succeed.  The function has no
compensating logic: when the insert succeeds and the update fails it returns
the update error with the inserted row still in place. -/
def acceptInvitation (db : AcceptDB) (currentUser : Option AcceptUser)
    (token : String) (insertOk updateOk : Bool) : AcceptResult × AcceptDB :=
  match currentUser with
  | none => (AcceptResult.notAuthenticated, db)
  | some user =>
    match singleRow (db.invitations.filter fun i =>
        i.token == token && !i.accepted && !i.expired) with
    | none => (AcceptResult.invalidOrExpired, db)
    | some invitation =>
      if user.email != invitation.email then (AcceptResult.emailMismatch, db)
      else if !insertOk then (AcceptResult.memberInsertError, db)
      else
        let newMember : TeamMemberRow :=
          { user_id := user.id, project_id := invitation.project_id,
            role := invitation.role, status := MemberStatus.active }
        let db1 := { db with team_members := db.team_members ++ [newMember] }
        if !updateOk then (AcceptResult.invitationUpdateError, db1)
        else (AcceptResult.joined,
          { db1 with invitations := markAccepted db1.invitations invitation.id })

/-! ## The project store (zustand reducer view) -/

/-- A project record as held in the store. -/
structure ProjectRec where
  id : String
  user_id : String
  owner_id : String
  title : String
  description : String
  deriving DecidableEq, Repr

/-- An article record as held in the store. -/
structure ArticleRec where
  id : String
  project_id : String
  title : String
  content : String
  deriving DecidableEq, Repr

/-- The `useProjectStore` state (projectStore.ts lines 5-20). -/
structure ProjectStoreState where
  projects : List ProjectRec
  currentProject : Option ProjectRec
  articles : List ArticleRec
  loading : Bool
  deriving Repr

/-- A `{ data, error }` API response carrying a list (the list-returning
wrappers substitute `[]` for null data, so `data` is always an array). -/
structure ListResp (α : Type) where
  data : List α
  error : Option String

/-- A `{ data, error }` API response carrying a single object or null. -/
structure ObjResp (α : Type) where
  data : Option α
  error : Option String

/-- Embedding of `fetchProjects` (projectStore.ts lines 22-29): set loading,
await `getUserProjects`, install the data only when `!error && data`, clear
loading. -/
def fetchProjects (st : ProjectStoreState) (resp : ListResp ProjectRec) :
    ProjectStoreState :=
  let st1 := { st with loading := true }
  let st2 := if resp.error.isNone then { st1 with projects := resp.data } else st1
  { st2 with loading := false }

/-- Embedding of the store `createProject` (projectStore.ts lines 31-42):
on success the new project is prepended to the current list
(`[data, ...projects]`); the call's error is returned to the caller. -/
def createProjectStore (st : ProjectStoreState) (resp : ObjResp ProjectRec) :
    ProjectStoreState × Option String :=
  let st1 := { st with loading := true }
  let st2 :=
    match resp.error, resp.data with
    | none, some p => { st1 with projects := p :: st1.projects }
    | _, _ => st1
  ({ st2 with loading := false }, resp.error)

/-- Embedding of `fetchArticles` (projectStore.ts lines 48-55). -/
def fetchArticles (st : ProjectStoreState) (resp : ListResp ArticleRec) :
    ProjectStoreState :=
  let st1 := { st with loading := true }
  let st2 := if resp.error.isNone then { st1 with articles := resp.data } else st1
  { st2 with loading := false }

/-! ## ArticleEditor.handleGenerateContent -/

/-- JS `String.prototype.trim` over the character list (so the kernel can
evaluate it): drop leading and trailing whitespace. -/
def trimmedChars (s : String) : List Char :=
  ((s.toList.dropWhile Char.isWhitespace).reverse.dropWhile Char.isWhitespace).reverse

/-- JS `String.prototype.includes`, over character lists. -/
def listIsInfixOf (pat : List Char) : List Char → Bool
  | [] => pat.isEmpty
  | c :: t => pat.isPrefixOf (c :: t) || listIsInfixOf pat t

/-- JS `a.includes(b)` for strings. -/
def includesSub (s pat : String) : Bool := listIsInfixOf pat.toList s.toList

/-- The usage fields of the loaded user profile. -/
structure UserProfileRec where
  usage_count : Nat
  usage_limit : Nat
  deriving DecidableEq, Repr

/-- Outcome of the awaited `generateContent(title + lengthPrompt, 'article')`
call: either the generated content, or the message of the thrown `Error`. -/
inductive GenOutcome where
  | generated (content : String)
  | failed (message : String)
  deriving DecidableEq, Repr

/-- showNotification severity. -/
inductive NotifKind where
  | error
  | success
  | info
  deriving DecidableEq, Repr

/-- One `showNotification(message, kind)` call. -/
structure Notif where
  message : String
  kind : NotifKind
  deriving DecidableEq, Repr

/-- The `short` / `medium` / `long` content-length setting. -/
inductive ContentLength where
  | short
  | medium
  | long
  deriving DecidableEq, Repr

/-- The `lengthPrompt` appended to the title (ArticleEditor.tsx lines
107-109). -/
def lengthPrompt : ContentLength → String
  | ContentLength.short => " (400-600 words)"
  | ContentLength.medium => " (800-1200 words)"
  | ContentLength.long => " (1500-2000 words)"

/-- The error-message selection of the catch branch (ArticleEditor.tsx lines
118-129): rate-limit and API-key substrings get dedicated texts, an empty
message falls back to the generic one. -/
def genErrorMessage (message : String) : String :=
  if includesSub message "rate limit" then
    "Gemini API rate limit exceeded. Please wait a few minutes before trying again."
  else if includesSub message "API key" then
    "Gemini API configuration error. Please check your settings."
  else if message == "" then "Failed to generate content. Please try again."
  else message

/-- Result of one `handleGenerateContent` run: the notification it showed,
the editor content afterwards, the user profile afterwards, and whether the
content generator was invoked at all. -/
structure GenerateRunResult where
  notif : Notif
  editorContent : String
  profile : Option UserProfileRec
  generatorCalled : Bool
  deriving Repr

/-- Embedding of `handleGenerateContent` (ArticleEditor.tsx lines 84-133).
Guards in source order: blank title, missing edit permission, missing
profile, exhausted usage (`usage_count >= usage_limit`).  Past the guards the
generator runs; on success the editor content is replaced and
`incrementUsage` runs (`incrementOk` says whether its underlying
`usage_count + 1` update succeeded); on a thrown error a notification is
shown and nothing else changes. -/
def handleGenerateContent (title : String) (canEdit : Bool)
    (userProfile : Option UserProfileRec) (editorContent : String)
    (gen : GenOutcome) (incrementOk : Bool) : GenerateRunResult :=
  if (trimmedChars title).isEmpty then
    { notif := ⟨"Please enter a title first", NotifKind.error⟩,
      editorContent := editorContent, profile := userProfile,
      generatorCalled := false }
  else if !canEdit then
    { notif := ⟨"You do not have permission to edit this project", NotifKind.error⟩,
      editorContent := editorContent, profile := userProfile,
      generatorCalled := false }
  else
    match userProfile with
    | none =>
      { notif := ⟨"Please sign in to use AI features", NotifKind.error⟩,
        editorContent := editorContent, profile := none,
        generatorCalled := false }
    | some profile =>
      if profile.usage_limit ≤ profile.usage_count then
        { notif := ⟨"You have reached your AI generation limit. Please upgrade to continue.",
                    NotifKind.error⟩,
          editorContent := editorContent, profile := some profile,
          generatorCalled := false }
      else
        match gen with
        | GenOutcome.generated content =>
          { notif := ⟨"Content generated successfully!", NotifKind.success⟩,
            editorContent := content,
            profile := some (if incrementOk then
              { profile with usage_count := profile.usage_count + 1 }
            else profile),
            generatorCalled := true }
        | GenOutcome.failed message =>
          { notif := ⟨genErrorMessage message, NotifKind.error⟩,
            editorContent := editorContent, profile := some profile,
            generatorCalled := true }

/-- A sample membership row used by concrete instantiations: user u1 is an
active editor of project p1. -/
def sampleEditorRow : TeamMemberRow :=
  { user_id := "u1", project_id := "p1",
    role := Role.editor, status := MemberStatus.active }

/-- A one-row team database holding `sampleEditorRow`. -/
def sampleTeamDB : TeamDB := { team_members := [sampleEditorRow] }

/-! ## Theorems -/

/-- Helper: under the database's UNIQUE(user_id, project_id) constraint
(stated as: at most one row passes the active-membership filter),
`getUserProjectRole` returns a role exactly when an active membership row
with that role exists. -/
theorem getUserProjectRole_some_iff (db : TeamDB) (uid projectId : String)
    (hone : (db.team_members.filter (activeMembershipFor uid projectId)).length ≤ 1)
    (r : Role) :
    getUserProjectRole db (some uid) projectId = some r ↔
      ∃ t ∈ db.team_members, t.user_id = uid ∧ t.project_id = projectId ∧
        t.status = MemberStatus.active ∧ t.role = r := by
  simp only [getUserProjectRole]
  cases hfil : db.team_members.filter (activeMembershipFor uid projectId) with
  | nil =>
    simp only [singleRow]
    constructor
    · intro h; cases h
    · rintro ⟨t, ht, h1, h2, h3, h4⟩
      have : t ∈ db.team_members.filter (activeMembershipFor uid projectId) := by
        rw [List.mem_filter]
        exact ⟨ht, by simp [activeMembershipFor, h1, h2, h3]⟩
      rw [hfil] at this
      cases this
  | cons a tail =>
    cases tail with
    | nil =>
      have ha : a ∈ db.team_members.filter (activeMembershipFor uid projectId) := by
        rw [hfil]; exact List.mem_singleton.mpr rfl
      rw [List.mem_filter] at ha
      obtain ⟨hamem, hap⟩ := ha
      simp only [activeMembershipFor, Bool.and_eq_true, beq_iff_eq] at hap
      obtain ⟨⟨hp, hu⟩, hs⟩ := hap
      simp only [singleRow, Option.some.injEq]
      constructor
      · intro h
        exact ⟨a, hamem, hu, hp, hs, h⟩
      · rintro ⟨t, ht, h1, h2, h3, h4⟩
        have : t ∈ db.team_members.filter (activeMembershipFor uid projectId) := by
          rw [List.mem_filter]
          exact ⟨ht, by simp [activeMembershipFor, h1, h2, h3]⟩
        rw [hfil] at this
        rw [List.mem_singleton] at this
        rw [← this, h4]
    | cons b tail2 =>
      rw [hfil] at hone
      simp at hone

/-- Claim C2: permission gating is decided by the active team-member role.
Under the membership-uniqueness invariant, `canUserEditProject` is truthy
exactly when the current user has an active `team_members` row for the
project with role owner, admin or editor, `canUserManageTeam` exactly when
that role is owner or admin, and both are falsy with no current user (and,
by the iffs, with no active membership). -/
theorem permission_gating_by_role (db : TeamDB) (uid projectId : String)
    (hone : (db.team_members.filter (activeMembershipFor uid projectId)).length ≤ 1) :
    (canUserEditProject db (some uid) projectId = true ↔
      ∃ t ∈ db.team_members, t.user_id = uid ∧ t.project_id = projectId ∧
        t.status = MemberStatus.active ∧
        (t.role = Role.owner ∨ t.role = Role.admin ∨ t.role = Role.editor)) ∧
    (canUserManageTeam db (some uid) projectId = true ↔
      ∃ t ∈ db.team_members, t.user_id = uid ∧ t.project_id = projectId ∧
        t.status = MemberStatus.active ∧
        (t.role = Role.owner ∨ t.role = Role.admin)) ∧
    canUserEditProject db none projectId = false ∧
    canUserManageTeam db none projectId = false := by
  refine ⟨?_, ?_, rfl, rfl⟩
  · unfold canUserEditProject
    cases hr : getUserProjectRole db (some uid) projectId with
    | none =>
      constructor
      · intro h; cases h
      · rintro ⟨t, ht, h1, h2, h3, h4⟩
        have := (getUserProjectRole_some_iff db uid projectId hone t.role).mpr
          ⟨t, ht, h1, h2, h3, rfl⟩
        rw [hr] at this
        cases this
    | some role =>
      obtain ⟨t, ht, h1, h2, h3, h4⟩ :=
        (getUserProjectRole_some_iff db uid projectId hone role).mp hr
      constructor
      · intro hc
        refine ⟨t, ht, h1, h2, h3, ?_⟩
        rw [h4]
        cases role with
        | owner => exact Or.inl rfl
        | admin => exact Or.inr (Or.inl rfl)
        | editor => exact Or.inr (Or.inr rfl)
        | viewer => exact absurd hc (by decide)
      · rintro ⟨t2, ht2, g1, g2, g3, g4⟩
        have h2r := (getUserProjectRole_some_iff db uid projectId hone t2.role).mpr
          ⟨t2, ht2, g1, g2, g3, rfl⟩
        rw [hr] at h2r
        have hrole : role = t2.role := by injection h2r
        rcases g4 with g | g | g <;> rw [hrole, g] <;> decide
  · unfold canUserManageTeam
    cases hr : getUserProjectRole db (some uid) projectId with
    | none =>
      constructor
      · intro h; cases h
      · rintro ⟨t, ht, h1, h2, h3, h4⟩
        have := (getUserProjectRole_some_iff db uid projectId hone t.role).mpr
          ⟨t, ht, h1, h2, h3, rfl⟩
        rw [hr] at this
        cases this
    | some role =>
      obtain ⟨t, ht, h1, h2, h3, h4⟩ :=
        (getUserProjectRole_some_iff db uid projectId hone role).mp hr
      constructor
      · intro hc
        refine ⟨t, ht, h1, h2, h3, ?_⟩
        rw [h4]
        cases role with
        | owner => exact Or.inl rfl
        | admin => exact Or.inr rfl
        | editor => exact absurd hc (by decide)
        | viewer => exact absurd hc (by decide)
      · rintro ⟨t2, ht2, g1, g2, g3, g4⟩
        have h2r := (getUserProjectRole_some_iff db uid projectId hone t2.role).mpr
          ⟨t2, ht2, g1, g2, g3, rfl⟩
        rw [hr] at h2r
        have hrole : role = t2.role := by injection h2r
        rcases g4 with g | g <;> rw [hrole, g] <;> decide

/-- Witness for C2: on a one-row database where user u1 is an active editor
of project p1, the uniqueness hypothesis holds, `canUserEditProject` is
true and `canUserManageTeam` is false. -/
theorem permission_gating_by_role_witness :
    ((sampleTeamDB.team_members.filter (activeMembershipFor "u1" "p1")).length ≤ 1) ∧
    canUserEditProject sampleTeamDB (some "u1") "p1" = true ∧
    canUserManageTeam sampleTeamDB (some "u1") "p1" = false := by
  refine ⟨by decide, ?_, by decide⟩
  exact (permission_gating_by_role sampleTeamDB "u1" "p1" (by decide)).1.mpr
    ⟨sampleEditorRow, by decide, rfl, rfl, rfl, Or.inr (Or.inr rfl)⟩

/-- Claim C7: the hash router is a deterministic total function of the hash
string; `handleHashChange` equals the first-matching-prefix reading of the
spec's route table, and unmatched hashes (including the empty string) give
the landing view. -/
theorem router_first_prefix_match :
    (∀ hash : String, handleHashChange hash = firstMatchRoute routeTable hash) ∧
    handleHashChange "" = View.landing ∧
    handleHashChange "#/project/abc" = View.editor ∧
    handleHashChange "#/teamXYZ" = View.team ∧
    handleHashChange "#/x" = View.landing := by
  refine ⟨fun hash => rfl, by decide, by decide, by decide, by decide⟩

/-- Claim C3 (amended): every embedded SDK wrapper except the Supabase
`signOut` returns a `{ data, error }` object for every outcome of its
underlying SDK calls, including thrown exceptions; the Supabase `signOut`
(which has no try/catch) returns normally exactly when its SDK call does
not throw. -/
theorem wrappers_return_result_objects :
    (∀ env : Env,
      (sbSignUp env).1.isOk = true ∧
      (sbSignIn env).1.isOk = true ∧
      (sbCreateProject env).1.isOk = true ∧
      (sbGetUserProjects env).1.isOk = true ∧
      (sbCreateArticle env).1.isOk = true ∧
      (sbUpdateArticle env).1.isOk = true ∧
      (sbGetUserProfile env).1.isOk = true ∧
      (sbIncrementUsageCount env).1.isOk = true ∧
      (sbInviteTeamMemberTr env).1.isOk = true ∧
      (fbSignUp env).1.isOk = true ∧
      (fbSignIn env).1.isOk = true ∧
      (fbSignOut env).1.isOk = true ∧
      (fbCreateProject env).1.isOk = true ∧
      (fbIncrementUsageCount env).1.isOk = true ∧
      (storeSignIn env).1.isOk = true ∧
      (storeSignUp env).1.isOk = true) ∧
    (∀ env : Env, (sbSignOut env).1.isOk = true ↔ env.outcomes 0 ≠ Outcome.thrown) := by
  constructor
  · intro env
    refine ⟨?_, ?_, ?_, ?_, ?_, ?_, ?_, ?_, ?_, ?_, ?_, ?_, ?_, ?_, ?_, ?_⟩
    · unfold sbSignUp; cases env.outcomes 0 <;> rfl
    · unfold sbSignIn; cases env.outcomes 0 <;> rfl
    · unfold sbCreateProject sbGetCurrentUser
      cases env.outcomes 0 <;> cases env.outcomes 1 <;> rfl
    · unfold sbGetUserProjects sbGetCurrentUser
      cases env.outcomes 0 <;> cases env.outcomes 1 <;> rfl
    · unfold sbCreateArticle; cases env.outcomes 0 <;> rfl
    · unfold sbUpdateArticle; cases env.outcomes 0 <;> rfl
    · unfold sbGetUserProfile sbGetUserProfileAt sbGetCurrentUser
      cases env.outcomes 0 <;> cases env.outcomes 1 <;> rfl
    · unfold sbIncrementUsageCount sbGetCurrentUser
      cases env.outcomes 0 <;> cases env.outcomes 1 <;> rfl
    · unfold sbInviteTeamMemberTr sbGetCurrentUser
      cases env.outcomes 0 <;> cases env.outcomes 1 <;> cases env.outcomes 2 <;>
        cases env.outcomes 3 <;> rfl
    · unfold fbSignUp; cases env.outcomes 0 <;> cases env.outcomes 1 <;> rfl
    · unfold fbSignIn; cases env.outcomes 0 <;> rfl
    · unfold fbSignOut; cases env.outcomes 0 <;> rfl
    · unfold fbCreateProject
      cases env.hasUser <;> cases env.outcomes 0 <;> cases env.outcomes 1 <;> rfl
    · unfold fbIncrementUsageCount
      cases env.hasUser <;> cases env.outcomes 0 <;> cases env.outcomes 1 <;> rfl
    · unfold storeSignIn sbSignIn sbGetUserProfileAt sbGetCurrentUser
      cases env.outcomes 0 <;> cases env.outcomes 1 <;> cases env.outcomes 2 <;> rfl
    · unfold storeSignUp sbSignUp sbGetUserProfileAt sbGetCurrentUser
      cases env.outcomes 0 <;> cases env.outcomes 1 <;> cases env.outcomes 2 <;> rfl
  · intro env
    unfold sbSignOut
    cases env.outcomes 0 <;> decide

/-- Counterexample to C3 as stated: when the awaited
`supabase.auth.signOut()` throws, the Supabase `signOut` wrapper does not
return a `{ error }` object - the exception escapes to the caller. -/
theorem signOut_exception_escapes :
    (sbSignOut envThrow).1 = Except.error () := rfl

/-- Claim C8 (amended): in every embedded store operation and SDK wrapper,
each underlying SDK call is issued at most once per invocation (traces are
duplicate-free for every oracle, hence no retry on failure); however, the
auth store's `signIn` and `signUp` insert fixed 500 ms / 2000 ms `setTimeout`
delays between the auth call and the subsequent profile fetch. -/
theorem sdk_calls_at_most_once_no_retry :
    (∀ env : Env,
      (sbSignUp env).2.Nodup ∧
      (sbSignIn env).2.Nodup ∧
      (sbSignOut env).2.Nodup ∧
      (sbCreateProject env).2.Nodup ∧
      (sbGetUserProjects env).2.Nodup ∧
      (sbCreateArticle env).2.Nodup ∧
      (sbUpdateArticle env).2.Nodup ∧
      (sbGetUserProfile env).2.Nodup ∧
      (sbIncrementUsageCount env).2.Nodup ∧
      (sbInviteTeamMemberTr env).2.Nodup ∧
      (fbSignUp env).2.Nodup ∧
      (fbSignIn env).2.Nodup ∧
      (fbSignOut env).2.Nodup ∧
      (fbCreateProject env).2.Nodup ∧
      (fbIncrementUsageCount env).2.Nodup ∧
      (storeSignIn env).2.Nodup ∧
      (storeSignUp env).2.Nodup) ∧
    (storeSignIn envAllOk).2.contains (SDKCall.sleep 500) = true ∧
    (storeSignUp envAllOk).2.contains (SDKCall.sleep 2000) = true := by
  refine ⟨?_, by decide, by decide⟩
  intro env
  refine ⟨?_, ?_, ?_, ?_, ?_, ?_, ?_, ?_, ?_, ?_, ?_, ?_, ?_, ?_, ?_, ?_, ?_⟩
  · unfold sbSignUp; cases env.outcomes 0 <;> decide
  · unfold sbSignIn; cases env.outcomes 0 <;> decide
  · unfold sbSignOut; cases env.outcomes 0 <;> decide
  · unfold sbCreateProject sbGetCurrentUser
    cases env.outcomes 0 <;> cases env.outcomes 1 <;> decide
  · unfold sbGetUserProjects sbGetCurrentUser
    cases env.outcomes 0 <;> cases env.outcomes 1 <;> decide
  · unfold sbCreateArticle; cases env.outcomes 0 <;> decide
  · unfold sbUpdateArticle; cases env.outcomes 0 <;> decide
  · unfold sbGetUserProfile sbGetUserProfileAt sbGetCurrentUser
    cases env.outcomes 0 <;> cases env.outcomes 1 <;> decide
  · unfold sbIncrementUsageCount sbGetCurrentUser
    cases env.outcomes 0 <;> cases env.outcomes 1 <;> decide
  · unfold sbInviteTeamMemberTr sbGetCurrentUser
    cases env.outcomes 0 <;> cases env.outcomes 1 <;> cases env.outcomes 2 <;>
      cases env.outcomes 3 <;> decide
  · unfold fbSignUp; cases env.outcomes 0 <;> cases env.outcomes 1 <;> decide
  · unfold fbSignIn; cases env.outcomes 0 <;> decide
  · unfold fbSignOut; cases env.outcomes 0 <;> decide
  · unfold fbCreateProject
    cases env.hasUser <;> cases env.outcomes 0 <;> cases env.outcomes 1 <;> decide
  · unfold fbIncrementUsageCount
    cases env.hasUser <;> cases env.outcomes 0 <;> cases env.outcomes 1 <;> decide
  · unfold storeSignIn sbSignIn sbGetUserProfileAt sbGetCurrentUser
    cases env.outcomes 0 <;> cases env.outcomes 1 <;> cases env.outcomes 2 <;> decide
  · unfold storeSignUp sbSignUp sbGetUserProfileAt sbGetCurrentUser
    cases env.outcomes 0 <;> cases env.outcomes 1 <;> cases env.outcomes 2 <;> decide

/-- Counterexample to C8 as stated: the auth store's `signIn` and `signUp`
insert custom delay logic - their successful traces contain explicit 500 ms
and 2000 ms `setTimeout` sleeps between the auth call and the profile
fetch. -/
theorem auth_store_inserts_fixed_delays :
    (storeSignIn envAllOk).2 =
      [SDKCall.authSignInPw, SDKCall.sleep 500, SDKCall.authGetUser,
       SDKCall.dbSelect "users"] ∧
    (storeSignUp envAllOk).2 =
      [SDKCall.authSignUp, SDKCall.sleep 2000, SDKCall.authGetUser,
       SDKCall.dbSelect "users"] := by
  exact ⟨rfl, rfl⟩

/-- Claim C1 (amended): the delegation boundary holds only for the Supabase
backend's profile/membership/activity-log writes: Supabase `signUp` issues
nothing but the auth call and Supabase `createProject` never inserts into
`team_members`, `users` or `activity_logs` (those rows come from SQL
triggers); but the Firebase twin writes the user profile, the owner
membership and the activity log from the client, and both backends update
the usage counter with a client-issued update. -/
theorem baas_boundary_split_by_backend :
    (∀ env : Env, (sbSignUp env).2 = [SDKCall.authSignUp]) ∧
    (∀ env : Env,
      (sbCreateProject env).2.contains (SDKCall.dbInsert "team_members") = false ∧
      (sbCreateProject env).2.contains (SDKCall.dbInsert "users") = false ∧
      (sbCreateProject env).2.contains (SDKCall.dbInsert "activity_logs") = false) ∧
    (fbSignUp envAllOk).2.contains (SDKCall.fsSetDoc "users") = true ∧
    (fbCreateProject envAllOk).2.contains (SDKCall.fsAddDoc "team_members") = true ∧
    (fbCreateProject envAllOk).2.contains (SDKCall.fsAddDoc "activity_logs") = true ∧
    (sbIncrementUsageCount envAllOk).2.contains (SDKCall.dbUpdate "users") = true ∧
    (fbIncrementUsageCount envAllOk).2.contains (SDKCall.fsUpdateDoc "users") = true := by
  refine ⟨?_, ?_, by decide, by decide, by decide, by decide, by decide⟩
  · intro env
    unfold sbSignUp; cases env.outcomes 0 <;> rfl
  · intro env
    unfold sbCreateProject sbGetCurrentUser
    refine ⟨?_, ?_, ?_⟩ <;> (cases env.outcomes 0 <;> cases env.outcomes 1 <;> decide)

/-- Counterexample to C1 as stated: exported client functions do create a
user-profile record (Firebase `signUp`), insert a team-membership row and
write an activity-log entry (Firebase `createProject`), and update the
usage counter directly (both `incrementUsageCount` variants). -/
theorem firebase_client_writes_directly :
    (fbSignUp envAllOk).2.contains (SDKCall.fsSetDoc "users") = true ∧
    (fbCreateProject envAllOk).2.contains (SDKCall.fsAddDoc "team_members") = true ∧
    (fbCreateProject envAllOk).2.contains (SDKCall.fsAddDoc "activity_logs") = true ∧
    (fbIncrementUsageCount envAllOk).2.contains (SDKCall.fsUpdateDoc "users") = true ∧
    (sbIncrementUsageCount envAllOk).2.contains (SDKCall.dbUpdate "users") = true := by
  refine ⟨?_, ?_, ?_, ?_, ?_⟩ <;> decide

/-- Claim C6 (amended): the Supabase `inviteTeamMember` leaves the
invitation token and expiry to the database DEFAULT clauses (its insert
payload carries neither), while the Firebase variant computes both
client-side: its payload carries the concatenation of two `Math.random`
base-36 draws as token and `Date.now() + 7 days` as expiry. -/
theorem invitation_invariants_by_backend :
    (∀ (projectId email uid : String) (role : Role),
      (sbInvitePayload projectId email role uid).token = none ∧
      (sbInvitePayload projectId email role uid).expires_at = none) ∧
    (∀ (projectId email uid rand1 rand2 : String) (role : Role) (nowMs : Nat),
      (fbInvitePayload projectId email role uid rand1 rand2 nowMs).token =
        some (generateInviteToken rand1 rand2) ∧
      (fbInvitePayload projectId email role uid rand1 rand2 nowMs).expires_at =
        some (nowMs + sevenDaysMs)) :=
  ⟨fun _ _ _ _ => ⟨rfl, rfl⟩, fun _ _ _ _ _ _ _ => ⟨rfl, rfl⟩⟩

/-- Counterexample to C6 as stated: the Firebase `inviteTeamMember` computes
the invitation token and the 7-day expiry timestamp itself - at `Date.now()`
of 1000 ms its payload carries the client-computed token and the expiry
1000 + 604800000. -/
theorem firebase_computes_token_and_expiry :
    (fbInvitePayload "p1" "invitee@example.com" Role.editor "u1"
        "abc123def4567" "ghi890jkl1234" 1000).token =
      some "abc123def4567ghi890jkl1234" ∧
    (fbInvitePayload "p1" "invitee@example.com" Role.editor "u1"
        "abc123def4567" "ghi890jkl1234" 1000).expires_at = some 604801000 := by
  exact ⟨rfl, by decide⟩

/-- Claim C9: the Supabase `inviteTeamMember` pre-existing-member check
queries the CALLER's `team_members` row, not the invited email's: whenever
the caller has a membership row for the project, the function returns the
already-a-member error and leaves both tables unchanged, whatever email was
invited. -/
theorem invite_blocks_on_caller_membership (db : InviteDB)
    (uid projectId email : String) (role : Role) (t : TeamMemberRow)
    (hrow : db.team_members.filter
        (fun t => t.project_id == projectId && t.user_id == uid) = [t]) :
    (sbInviteTeamMember db (some uid) projectId email role).1 =
        InviteResult.alreadyMember ∧
    (sbInviteTeamMember db (some uid) projectId email role).2.invitations =
        db.invitations ∧
    (sbInviteTeamMember db (some uid) projectId email role).2.team_members =
        db.team_members := by
  simp only [sbInviteTeamMember]
  rw [hrow]
  exact ⟨rfl, rfl, rfl⟩

/-- Witness for C9: user u1 owns project p1; the invited address belongs to
nobody, yet inviting it fails with the already-a-member error. -/
theorem invite_blocks_on_caller_membership_witness :
    (sbInviteTeamMember
        { team_members := [{ user_id := "u1", project_id := "p1",
                             role := Role.owner, status := MemberStatus.active }],
          invitations := [] }
        (some "u1") "p1" "newcomer@example.com" Role.editor).1 =
      InviteResult.alreadyMember := by
  exact (invite_blocks_on_caller_membership
    { team_members := [{ user_id := "u1", project_id := "p1",
                         role := Role.owner, status := MemberStatus.active }],
      invitations := [] }
    "u1" "p1" "newcomer@example.com" Role.editor
    { user_id := "u1", project_id := "p1",
      role := Role.owner, status := MemberStatus.active }
    (by decide)).1

/-- Claim C4: `acceptInvitation` performs no compensating transaction: when
the team-member insert succeeds and the invitation update fails, it returns
the update error while the inserted membership row remains in the table and
the invitation is left unmarked. -/
theorem accept_invitation_no_rollback (db : AcceptDB) (user : AcceptUser)
    (token : String) (inv : AcceptInviteRow)
    (hinv : db.invitations.filter
        (fun i => i.token == token && !i.accepted && !i.expired) = [inv])
    (hemail : user.email = inv.email) :
    (acceptInvitation db (some user) token true false).1 =
        AcceptResult.invitationUpdateError ∧
    (acceptInvitation db (some user) token true false).2.team_members =
      db.team_members ++
        [{ user_id := user.id, project_id := inv.project_id,
           role := inv.role, status := MemberStatus.active }] ∧
    ({ user_id := user.id, project_id := inv.project_id,
       role := inv.role, status := MemberStatus.active } : TeamMemberRow) ∈
        (acceptInvitation db (some user) token true false).2.team_members ∧
    (acceptInvitation db (some user) token true false).2.invitations =
        db.invitations := by
  simp only [acceptInvitation]
  rw [hinv]
  simp [singleRow, hemail]

/-- Witness for C4: a one-invitation database in which the insert succeeds
and the update fails ends with the update error returned and the new member
row persisted. -/
theorem accept_invitation_no_rollback_witness :
    (acceptInvitation
        { invitations := [{ id := "i1", project_id := "p1", email := "a@b.c",
                            role := Role.editor, invited_by := "u0",
                            token := "tok", accepted := false, expired := false }],
          team_members := [] }
        (some { id := "u2", email := "a@b.c" }) "tok" true false).1 =
      AcceptResult.invitationUpdateError ∧
    (acceptInvitation
        { invitations := [{ id := "i1", project_id := "p1", email := "a@b.c",
                            role := Role.editor, invited_by := "u0",
                            token := "tok", accepted := false, expired := false }],
          team_members := [] }
        (some { id := "u2", email := "a@b.c" }) "tok" true false).2.team_members =
      [{ user_id := "u2", project_id := "p1",
         role := Role.editor, status := MemberStatus.active }] := by
  have h := accept_invitation_no_rollback
    { invitations := [{ id := "i1", project_id := "p1", email := "a@b.c",
                        role := Role.editor, invited_by := "u0",
                        token := "tok", accepted := false, expired := false }],
      team_members := [] }
    { id := "u2", email := "a@b.c" } "tok"
    { id := "i1", project_id := "p1", email := "a@b.c",
      role := Role.editor, invited_by := "u0",
      token := "tok", accepted := false, expired := false }
    (by decide) rfl
  exact ⟨h.1, h.2.1⟩

/-- Claim C10: the project store clears its loading flag on every completed
call, leaves `projects` and `articles` untouched when the API returned an
error, and a successful `createProject` prepends the new project to the head
of the list, preserving the existing order. -/
theorem store_atomic_on_error_clears_loading :
    (∀ (st : ProjectStoreState) (resp : ListResp ProjectRec),
      (fetchProjects st resp).loading = false ∧
      (resp.error ≠ none →
        (fetchProjects st resp).projects = st.projects ∧
        (fetchProjects st resp).articles = st.articles)) ∧
    (∀ (st : ProjectStoreState) (resp : ObjResp ProjectRec),
      (createProjectStore st resp).1.loading = false ∧
      (createProjectStore st resp).2 = resp.error ∧
      (resp.error ≠ none →
        (createProjectStore st resp).1.projects = st.projects ∧
        (createProjectStore st resp).1.articles = st.articles) ∧
      (∀ p : ProjectRec, resp.error = none → resp.data = some p →
        (createProjectStore st resp).1.projects = p :: st.projects)) ∧
    (∀ (st : ProjectStoreState) (resp : ListResp ArticleRec),
      (fetchArticles st resp).loading = false ∧
      (resp.error ≠ none →
        (fetchArticles st resp).articles = st.articles ∧
        (fetchArticles st resp).projects = st.projects)) := by
  refine ⟨?_, ?_, ?_⟩
  · intro st resp
    cases h : resp.error <;> simp [fetchProjects, h]
  · intro st resp
    cases h : resp.error with
    | none =>
      cases hd : resp.data with
      | none => simp [createProjectStore, h, hd]
      | some p => simp [createProjectStore, h, hd]
    | some e =>
      cases hd : resp.data with
      | none => simp [createProjectStore, h, hd]
      | some p => simp [createProjectStore, h, hd]
  · intro st resp
    cases h : resp.error <;> simp [fetchArticles, h]

/-- Witness for C10: a failed `getUserProjects` response leaves the (empty)
projects list exactly as it was. -/
theorem store_atomic_on_error_clears_loading_witness :
    (fetchProjects
        { projects := [], currentProject := none, articles := [], loading := true }
        { data := [], error := some "network down" }).projects = [] := by
  have h := store_atomic_on_error_clears_loading.1
    { projects := [], currentProject := none, articles := [], loading := true }
    { data := [], error := some "network down" }
  exact (h.2 (by simp)).1

/-- Claim C5: `handleGenerateContent` refuses (error notification, editor
content and profile untouched, generator never invoked) whenever the title
is blank, edit permission is missing, no profile is loaded, or
`usage_count >= usage_limit`; the usage counter changes only after a
successful generation, and then by exactly one. -/
theorem generation_gated_by_usage (title : String) (canEdit : Bool)
    (userProfile : Option UserProfileRec) (editorContent : String)
    (gen : GenOutcome) (incrementOk : Bool) :
    ((trimmedChars title).isEmpty = true ∨ canEdit = false ∨ userProfile = none ∨
        (∃ p, userProfile = some p ∧ p.usage_limit ≤ p.usage_count) →
      (handleGenerateContent title canEdit userProfile editorContent gen
          incrementOk).generatorCalled = false ∧
      (handleGenerateContent title canEdit userProfile editorContent gen
          incrementOk).editorContent = editorContent ∧
      (handleGenerateContent title canEdit userProfile editorContent gen
          incrementOk).profile = userProfile ∧
      (handleGenerateContent title canEdit userProfile editorContent gen
          incrementOk).notif.kind = NotifKind.error) ∧
    (∀ p : UserProfileRec, userProfile = some p →
      (handleGenerateContent title canEdit userProfile editorContent gen
          incrementOk).profile ≠ some p →
      ∃ c, gen = GenOutcome.generated c ∧
        (handleGenerateContent title canEdit userProfile editorContent gen
            incrementOk).profile =
          some { usage_count := p.usage_count + 1, usage_limit := p.usage_limit }) ∧
    (∀ (p : UserProfileRec) (c : String),
      userProfile = some p → (trimmedChars title).isEmpty = false →
      canEdit = true → p.usage_count < p.usage_limit →
      gen = GenOutcome.generated c → incrementOk = true →
      (handleGenerateContent title canEdit userProfile editorContent gen
          incrementOk).profile =
        some { usage_count := p.usage_count + 1, usage_limit := p.usage_limit } ∧
      (handleGenerateContent title canEdit userProfile editorContent gen
          incrementOk).editorContent = c ∧
      (handleGenerateContent title canEdit userProfile editorContent gen
          incrementOk).generatorCalled = true ∧
      (handleGenerateContent title canEdit userProfile editorContent gen
          incrementOk).notif =
        { message := "Content generated successfully!", kind := NotifKind.success }) := by
  refine ⟨?_, ?_, ?_⟩
  · intro hgate
    unfold handleGenerateContent
    by_cases hb : (trimmedChars title).isEmpty = true
    · simp [hb]
    · rw [if_neg (by simpa using hb)]
      cases hce : canEdit with
      | false => simp
      | true =>
        simp only [Bool.not_true, Bool.false_eq_true, if_false]
        rcases hgate with hb2 | hc2 | hp | ⟨p, hp, hl⟩
        · exact absurd hb2 hb
        · exact absurd hc2 (by simp [hce])
        · rw [hp]; simp
        · rw [hp]
          simp [Nat.le_of_lt, hl]
  · intro p hp hchanged
    subst hp
    by_cases hb : (trimmedChars title).isEmpty = true <;>
      cases canEdit <;>
      rcases gen with c | m <;>
      cases incrementOk <;>
      by_cases hl : p.usage_limit ≤ p.usage_count <;>
      simp_all [handleGenerateContent]
    rw [if_neg (Nat.not_le.mpr hl)]
  · intro p c hp hb hce hl hgen hinc
    subst hp; subst hce; subst hgen; subst hinc
    unfold handleGenerateContent
    rw [if_neg (by simp [hb])]
    simp only [Bool.not_true, Bool.false_eq_true, if_false]
    rw [if_neg (by omega)]
    exact ⟨by simp, rfl, rfl, rfl⟩

/-- Witness for C5: with a 3-of-10 profile, a blank title leaves the editor
content untouched, and a successful generation on a real title moves the
counter from 3 to exactly 4. -/
theorem generation_gated_by_usage_witness :
    ((trimmedChars "").isEmpty = true) ∧
    (handleGenerateContent "" true
        (some { usage_count := 3, usage_limit := 10 }) "old content"
        (GenOutcome.generated "new content") true).editorContent = "old content" ∧
    (handleGenerateContent "My article" true
        (some { usage_count := 3, usage_limit := 10 }) "old content"
        (GenOutcome.generated "new content") true).profile =
      some { usage_count := 4, usage_limit := 10 } := by
  refine ⟨by decide, ?_, ?_⟩
  · exact ((generation_gated_by_usage "" true
      (some { usage_count := 3, usage_limit := 10 }) "old content"
      (GenOutcome.generated "new content") true).1 (Or.inl (by decide))).2.1
  · exact ((generation_gated_by_usage "My article" true
      (some { usage_count := 3, usage_limit := 10 }) "old content"
      (GenOutcome.generated "new content") true).2.2
      { usage_count := 3, usage_limit := 10 } "new content"
      rfl (by decide) rfl (by decide) rfl rfl).1

end SeoForge
